import Mathlib

/-!
# Module-specifier cache: shallow embedding

Verification of the module-resolution result cache of the `tsserver`
language service, as exercised by
`src/testRunner/unittests/tsserver/moduleSpecifierCache.ts`.

The cache implementation itself (the server's `createModuleSpecifierCache`
and the project's invalidation handlers) is not part of the source slice;
only its unit test is.  The definitions below are therefore modelled from
the specification (data model §3, component design §4), with the key-match
behaviour pinned by the repository's unit test
("invalidates the cache when user preferences change"): a `set` under a
changed preference fingerprint clears the entries stored under the
previous fingerprint rather than keeping them alongside.

Paths are modelled as lists of components (`/src/a.ts` is
`["src", "a.ts"]`), so ancestor containment is list prefixing.
-/

/-- A canonical filesystem path, as its list of components. -/
abbrev FilePath0 := List String

/-- The user preference fields the cache sees.  `importModuleSpecifierPreference`
(specifier style) and `importModuleSpecifierEnding` (ending style) influence
resolution output and belong to the preference fingerprint; `unrelatedOption`
stands for any preference field that does not. -/
structure UserPreferences where
  importModuleSpecifierPreference : Option String := none
  importModuleSpecifierEnding : Option String := none
  unrelatedOption : Option String := none
deriving DecidableEq

/-- Resolution-mode context passed alongside the preferences
(`overrideImportMode` in the service). -/
structure ModeContext where
  overrideImportMode : Option String := none
deriving DecidableEq

/-- The preference fingerprint: exactly the preference fields that influence
resolution output, nothing else.  Modelled from the spec: "derived from only
the preference fields that influence resolution output". -/
structure PreferenceFingerprint where
  specifierStyle : Option String
  endingStyle : Option String
deriving DecidableEq

/-- Derive the fingerprint from a full preference record.  A change to
`unrelatedOption` does not change the result. -/
def preferenceFingerprint (p : UserPreferences) : PreferenceFingerprint :=
  { specifierStyle := p.importModuleSpecifierPreference
    endingStyle := p.importModuleSpecifierEnding }

/-- The key-mismatch component of a cache lookup: the importing file, the
preference fingerprint and the mode context.  The imported file indexes the
entry map itself.  Modelled from the spec's CacheKey, with the test-pinned
behaviour that one such key is current at a time. -/
structure CacheKey where
  fromFile : FilePath0
  fingerprint : PreferenceFingerprint
  mode : ModeContext
deriving DecidableEq

/-- Build the current-key part of the cache key from the raw inputs. -/
def cacheKey (fromFile : FilePath0) (prefs : UserPreferences) (mode : ModeContext) : CacheKey :=
  { fromFile := fromFile, fingerprint := preferenceFingerprint prefs, mode := mode }

/-- One candidate resolved path, flagged as the spec's data model requires. -/
structure ModulePath where
  path : FilePath0
  isInNodeModules : Bool
  isRedirect : Bool
deriving DecidableEq

/-- The value stored per key: resolved paths, the literal specifier strings,
and whether the import is blocked by undeclared package dependencies. -/
structure CacheEntry where
  modulePaths : List ModulePath
  moduleSpecifiers : List String
  isBlockedByPackageJsonDependencies : Bool
deriving DecidableEq

/-- The ancestor directory of `p` up to and including its first
`node_modules` component, when there is one.  This is the watch root the
cache records for a resolved path inside `node_modules`. -/
def nodeModulesRoot : FilePath0 → Option FilePath0
  | [] => none
  | c :: rest =>
    if c = "node_modules" then some [c]
    else (nodeModulesRoot rest).map (fun r => c :: r)

/-- `isUnder root p` holds when `root` is an ancestor of `p` (or `p`
itself): every component of `root` prefixes `p`. -/
def isUnder : FilePath0 → FilePath0 → Bool
  | [], _ => true
  | _ :: _, [] => false
  | r :: rs, c :: cs => r = c && isUnder rs cs

/-- The whole cache state.  `entries` maps the imported file to its entry
and is meaningful only under `currentKey`; `nodeModulesRoots` and
`manifestPaths` are the InvalidationScope of the spec (`node_modules`
watch roots touched, and manifest paths consulted during cached
computations). -/
structure ModuleSpecifierCache where
  currentKey : Option CacheKey
  entries : List (FilePath0 × CacheEntry)
  nodeModulesRoots : List FilePath0
  manifestPaths : List FilePath0
deriving DecidableEq

/-- The empty cache: no key, no entries, empty invalidation scope. -/
def emptyCache : ModuleSpecifierCache :=
  { currentKey := none, entries := [], nodeModulesRoots := [], manifestPaths := [] }

/-- Look an imported file up in the entry map. -/
def lookupEntry (toFile : FilePath0) : List (FilePath0 × CacheEntry) → Option CacheEntry
  | [] => none
  | (t, e) :: rest => if t = toFile then some e else lookupEntry toFile rest

/-- Insert an entry for an imported file, overwriting any prior entry for
that file. -/
def insertEntry (toFile : FilePath0) (entry : CacheEntry) :
    List (FilePath0 × CacheEntry) → List (FilePath0 × CacheEntry)
  | [] => [(toFile, entry)]
  | (t, e) :: rest =>
    if t = toFile then (toFile, entry) :: rest
    else (t, e) :: insertEntry toFile entry rest

/-- `get`: build the key from the inputs and return the stored entry when
the key matches the cache's current key and the imported file has an entry;
otherwise signal absence.  Pure: no side effect, no computation triggered. -/
def ModuleSpecifierCache.get (c : ModuleSpecifierCache) (fromFile toFile : FilePath0)
    (prefs : UserPreferences) (mode : ModeContext) : Option CacheEntry :=
  if c.currentKey = some (cacheKey fromFile prefs mode) then lookupEntry toFile c.entries
  else none

/-- `clear`: empty the store and reset the InvalidationScope. -/
def ModuleSpecifierCache.clear (_c : ModuleSpecifierCache) : ModuleSpecifierCache :=
  emptyCache

/-- Record the `node_modules` watch roots of the resolved paths of an entry
into the scope. -/
def recordNodeModulesRoots (mps : List ModulePath) (roots : List FilePath0) : List FilePath0 :=
  mps.foldl
    (fun acc mp =>
      if mp.isInNodeModules then
        match nodeModulesRoot mp.path with
        | some r => if acc.contains r then acc else acc ++ [r]
        | none => acc
      else acc)
    roots

/-- `set`: store `entry` under the derived key.  When the cache already
holds entries under a different current key (the importing file, a
fingerprint-affecting preference, or the mode changed), those entries are
cleared first — the behaviour the repository's preference-change unit test
pins.  As a side effect the `node_modules` watch roots of the entry's
resolved paths are recorded in the InvalidationScope. -/
def ModuleSpecifierCache.set (c : ModuleSpecifierCache) (fromFile toFile : FilePath0)
    (prefs : UserPreferences) (mode : ModeContext) (entry : CacheEntry) : ModuleSpecifierCache :=
  let k := cacheKey fromFile prefs mode
  let c' := if c.currentKey = some k ∨ c.currentKey = none then c else c.clear
  { currentKey := some k
    entries := insertEntry toFile entry c'.entries
    nodeModulesRoots := recordNodeModulesRoots entry.modulePaths c'.nodeModulesRoots
    manifestPaths := c'.manifestPaths }

/-- `count`: the number of live entries. -/
def ModuleSpecifierCache.count (c : ModuleSpecifierCache) : Nat :=
  c.entries.length

/-- Record a manifest (`package.json`) path consulted during a cached
computation into the InvalidationScope.  Modelled from the spec: the scope
tracks "the set of directories currently known to contain a `package.json`
consulted during any cached computation"; which manifests a computation
consults is the resolution algorithm's business. -/
def ModuleSpecifierCache.recordManifest (c : ModuleSpecifierCache) (p : FilePath0) :
    ModuleSpecifierCache :=
  { c with manifestPaths := p :: c.manifestPaths }

/-- The kind of a filesystem change event. -/
inductive ChangeKind where
  | created
  | modified
  | deleted
deriving DecidableEq

/-- The events the invalidation handler consumes: an ordinary filesystem
change at a path, a symbolic-link structural change (created, removed,
renamed or retargeted), a user-preference change, and a change to a
module-resolution-affecting compiler setting.  Modelled from the spec's
Invalidation Triggers (§4.2). -/
inductive CacheEvent where
  | fsChange (path : FilePath0) (kind : ChangeKind)
  | symlinkChange (path : FilePath0)
  | preferenceChange
  | resolutionSettingsChange
deriving DecidableEq

/-- Does a filesystem change at `p` fall under a recorded `node_modules`
watch root (including staged or temporary install subdirectories beneath
it)? -/
def affectsNodeModules (c : ModuleSpecifierCache) (p : FilePath0) : Bool :=
  c.nodeModulesRoots.any (fun r => isUnder r p)

/-- Is `p` a recorded manifest path? -/
def affectsManifest (c : ModuleSpecifierCache) (p : FilePath0) : Bool :=
  c.manifestPaths.contains p

/-- The invalidation pass, modelled from the spec's trigger table: a write
under a recorded `node_modules` root or at a recorded manifest path clears
fully; any symbolic-link structural change clears fully; a
module-resolution-setting change clears fully; a preference change clears
nothing (the key simply stops matching); any other filesystem event is
outside the recorded scope and leaves the cache untouched. -/
def ModuleSpecifierCache.invalidate (c : ModuleSpecifierCache) (e : CacheEvent) :
    ModuleSpecifierCache :=
  match e with
  | .fsChange p _ =>
    if affectsNodeModules c p || affectsManifest c p then c.clear else c
  | .symlinkChange _ => c.clear
  | .preferenceChange => c
  | .resolutionSettingsChange => c.clear

/-! ## Concrete fixtures from the unit test -/

/-- `/src/a.ts` of the test fixture. -/
def aTsPath : FilePath0 := ["src", "a.ts"]

/-- `/src/b.ts` of the test fixture. -/
def bTsPath : FilePath0 := ["src", "b.ts"]

/-- `/src/c.ts` of the test fixture. -/
def cTsPath : FilePath0 := ["src", "c.ts"]

/-- `/node_modules/mobx/index.d.ts` of the test fixture. -/
def mobxDtsPath : FilePath0 := ["node_modules", "mobx", "index.d.ts"]

/-- The entry the test expects for the import of mobx from `/src/c.ts`:
resolved inside `node_modules`, not a redirect, bare specifier `mobx`,
dependency declared in the manifest. -/
def mobxEntry : CacheEntry :=
  { modulePaths := [{ path := mobxDtsPath, isInNodeModules := true, isRedirect := false }]
    moduleSpecifiers := ["mobx"]
    isBlockedByPackageJsonDependencies := false }

/-- An arbitrary entry for the import of `/src/a.ts` from `/src/b.ts`. -/
def abEntry : CacheEntry :=
  { modulePaths := [{ path := aTsPath, isInNodeModules := false, isRedirect := false }]
    moduleSpecifiers := ["./a"]
    isBlockedByPackageJsonDependencies := false }

/-- A second, distinct entry for the same import, as recomputed under
changed preferences. -/
def abEntry2 : CacheEntry :=
  { modulePaths := [{ path := aTsPath, isInNodeModules := false, isRedirect := false }]
    moduleSpecifiers := ["/src/a"]
    isBlockedByPackageJsonDependencies := false }

/-- The staged-install path the test writes:
`/node_modules/.staging/mobx-12345678/package.json`. -/
def stagingPath : FilePath0 := ["node_modules", ".staging", "mobx-12345678", "package.json"]

/-- The symbolic link `/src/b-link.ts` the test renames. -/
def bLinkPath : FilePath0 := ["src", "b-link.ts"]

/-- The sibling source file `/src/a2.ts` the test creates. -/
def siblingPath : FilePath0 := ["src", "a2.ts"]

/-- The root manifest `/package.json` of the test fixture. -/
def manifestRootPath : FilePath0 := ["package.json"]

/-- Preferences with the fingerprint-affecting specifier style changed to
`project-relative`, as in the preference-change test. -/
def prPrefs : UserPreferences :=
  { importModuleSpecifierPreference := some "project-relative" }

/-- The cache after the mobx completion result has been stored: one entry,
with `["node_modules"]` recorded as a watch root. -/
def mobxCachedState : ModuleSpecifierCache :=
  emptyCache.set cTsPath mobxDtsPath {} {} mobxEntry

/-- The mobx-cached state with the root manifest additionally recorded as
consulted. -/
def watchedState : ModuleSpecifierCache :=
  mobxCachedState.recordManifest manifestRootPath

/-- The cache after storing the `/src/b.ts → /src/a.ts` entry under the
default preferences. -/
def prefState1 : ModuleSpecifierCache :=
  emptyCache.set bTsPath aTsPath {} {} abEntry

/-- `prefState1` repopulated under the changed specifier-style preference. -/
def prefState2 : ModuleSpecifierCache :=
  prefState1.set bTsPath aTsPath prPrefs {} abEntry2

/-! ## Basic lemmas -/

/-- Inserting and then looking up the same imported file finds the new entry. -/
theorem lookupEntry_insertEntry_self (toFile : FilePath0) (entry : CacheEntry)
    (es : List (FilePath0 × CacheEntry)) :
    lookupEntry toFile (insertEntry toFile entry es) = some entry := by
  induction es with
  | nil => simp [insertEntry, lookupEntry]
  | cons hd tl ih =>
    obtain ⟨t, e⟩ := hd
    by_cases h : t = toFile
    · simp [insertEntry, lookupEntry, h]
    · simp [insertEntry, lookupEntry, h, ih]

/-- A cleared cache holds no entries and an empty scope. -/
theorem clear_eq_empty (c : ModuleSpecifierCache) : c.clear = emptyCache := rfl

/-- A `get` with the inputs just passed to `set` finds the stored entry. -/
theorem get_set_self (c : ModuleSpecifierCache) (fromFile toFile : FilePath0)
    (prefs : UserPreferences) (mode : ModeContext) (entry : CacheEntry) :
    (c.set fromFile toFile prefs mode entry).get fromFile toFile prefs mode = some entry := by
  simp [ModuleSpecifierCache.set, ModuleSpecifierCache.get, lookupEntry_insertEntry_self]

/-- A `get` whose derived key differs from the key just installed by `set`
signals absence. -/
theorem get_set_ne_key (c : ModuleSpecifierCache) (fromFile toFile : FilePath0)
    (prefs : UserPreferences) (mode : ModeContext) (entry : CacheEntry)
    (f' t' : FilePath0) (prefs' : UserPreferences) (mode' : ModeContext)
    (h : cacheKey f' prefs' mode' ≠ cacheKey fromFile prefs mode) :
    (c.set fromFile toFile prefs mode entry).get f' t' prefs' mode' = none := by
  have hk : ¬ (some (cacheKey fromFile prefs mode) = some (cacheKey f' prefs' mode')) := by
    intro hh
    exact h (Option.some.inj hh).symm
  simp [ModuleSpecifierCache.set, ModuleSpecifierCache.get, hk]

/-- Distinct preference fingerprints yield distinct cache keys. -/
theorem cacheKey_ne_of_fp_ne (f : FilePath0) (m : ModeContext) {p q : UserPreferences}
    (h : preferenceFingerprint p ≠ preferenceFingerprint q) :
    cacheKey f p m ≠ cacheKey f q m :=
  fun he => h (congrArg CacheKey.fingerprint he)

/-- A filesystem event outside every recorded scope leaves the cache state
identical. -/
theorem invalidate_fsChange_of_outside (c : ModuleSpecifierCache) (p : FilePath0)
    (k : ChangeKind) (h1 : affectsNodeModules c p = false) (h2 : affectsManifest c p = false) :
    c.invalidate (.fsChange p k) = c := by
  simp [ModuleSpecifierCache.invalidate, h1, h2]

/-! ## Claims -/

/-- C1: for every input tuple `(fromFile, toFile, preferences, modeContext)`
and every entry, `get` immediately after `set` with the same inputs returns
exactly the stored entry (no invalidating event in between). -/
theorem get_after_set_roundtrip (c : ModuleSpecifierCache) (fromFile toFile : FilePath0)
    (prefs : UserPreferences) (mode : ModeContext) (entry : CacheEntry) :
    (c.set fromFile toFile prefs mode entry).get fromFile toFile prefs mode = some entry := by
  simp [ModuleSpecifierCache.set, ModuleSpecifierCache.get, lookupEntry_insertEntry_self]

/-- C2: for every nonempty cache state, a filesystem write under any recorded
`node_modules` watch root (including a staged or temporary install
subdirectory beneath it) fully clears the cache: `count` returns 0 after the
invalidation pass. -/
theorem nodeModules_write_clears (c : ModuleSpecifierCache) (p : FilePath0) (k : ChangeKind)
    (_hne : 0 < c.count) (h : affectsNodeModules c p = true) :
    (c.invalidate (.fsChange p k)).count = 0 := by
  simp [ModuleSpecifierCache.invalidate, h, ModuleSpecifierCache.clear, emptyCache,
    ModuleSpecifierCache.count]

/-- Witness for C2: the mobx-cached state is nonempty, the staged-install
write falls under the recorded `node_modules` root, and the invalidation
pass empties the cache. -/
theorem nodeModules_write_clears_witness :
    0 < mobxCachedState.count ∧ affectsNodeModules mobxCachedState stagingPath = true ∧
    (mobxCachedState.invalidate (.fsChange stagingPath .created)).count = 0 :=
  ⟨by decide, by decide,
    nodeModules_write_clears mobxCachedState stagingPath .created (by decide) (by decide)⟩

/-- C3: for every nonempty cache state, any symbolic-link structural change
anywhere in the project fully clears the cache: `count` returns 0 after the
invalidation pass. -/
theorem symlink_change_clears (c : ModuleSpecifierCache) (p : FilePath0)
    (_hne : 0 < c.count) :
    (c.invalidate (.symlinkChange p)).count = 0 := rfl

/-- Witness for C3: renaming the `/src/b-link.ts` symbolic link empties the
nonempty mobx-cached state. -/
theorem symlink_change_clears_witness :
    0 < mobxCachedState.count ∧
    (mobxCachedState.invalidate (.symlinkChange bLinkPath)).count = 0 :=
  ⟨by decide, symlink_change_clears mobxCachedState bLinkPath (by decide)⟩

/-- C4: for every nonempty cache state, a content change to `package.json`
at any recorded manifest path (the project root included) fully clears the
cache: `count` returns 0 after the invalidation pass. -/
theorem manifest_change_clears (c : ModuleSpecifierCache) (p : FilePath0) (k : ChangeKind)
    (_hne : 0 < c.count) (h : affectsManifest c p = true) :
    (c.invalidate (.fsChange p k)).count = 0 := by
  simp [ModuleSpecifierCache.invalidate, h, ModuleSpecifierCache.clear, emptyCache,
    ModuleSpecifierCache.count]

/-- Witness for C4: editing the recorded root `package.json` empties the
nonempty watched state. -/
theorem manifest_change_clears_witness :
    0 < watchedState.count ∧ affectsManifest watchedState manifestRootPath = true ∧
    (watchedState.invalidate (.fsChange manifestRootPath .modified)).count = 0 :=
  ⟨by decide, by decide,
    manifest_change_clears watchedState manifestRootPath .modified (by decide) (by decide)⟩

/-- C5: for every nonempty cache state, a change to a
module-resolution-affecting compiler setting fully clears the cache:
`count` returns 0 after the invalidation pass. -/
theorem resolution_settings_change_clears (c : ModuleSpecifierCache)
    (_hne : 0 < c.count) :
    (c.invalidate .resolutionSettingsChange).count = 0 := rfl

/-- Witness for C5: switching the resolution strategy empties the nonempty
mobx-cached state. -/
theorem resolution_settings_change_clears_witness :
    0 < mobxCachedState.count ∧
    (mobxCachedState.invalidate .resolutionSettingsChange).count = 0 :=
  ⟨by decide, resolution_settings_change_clears mobxCachedState (by decide)⟩

/-- C6: a filesystem event whose path lies outside every recorded manifest
and `node_modules` scope — such as the creation of a brand-new sibling
source file — and that is not a link-structure change causes no
invalidation: the state is unchanged, `count` is unchanged, and every
previously stored entry is still served by `get`. -/
theorem outside_scope_frame (c : ModuleSpecifierCache) (p : FilePath0) (k : ChangeKind)
    (h1 : affectsNodeModules c p = false) (h2 : affectsManifest c p = false) :
    c.invalidate (.fsChange p k) = c ∧
    (c.invalidate (.fsChange p k)).count = c.count ∧
    ∀ (fromFile toFile : FilePath0) (prefs : UserPreferences) (mode : ModeContext),
      (c.invalidate (.fsChange p k)).get fromFile toFile prefs mode
        = c.get fromFile toFile prefs mode := by
  have he : c.invalidate (.fsChange p k) = c := invalidate_fsChange_of_outside c p k h1 h2
  exact ⟨he, by rw [he], fun fromFile toFile prefs mode => by rw [he]⟩

/-- Witness for C6: creating `/src/a2.ts` touches no recorded scope of the
watched state; the count is unchanged and the cached mobx entry is still
served. -/
theorem outside_scope_frame_witness :
    affectsNodeModules watchedState siblingPath = false ∧
    affectsManifest watchedState siblingPath = false ∧
    (watchedState.invalidate (.fsChange siblingPath .created)).count = watchedState.count ∧
    (watchedState.invalidate (.fsChange siblingPath .created)).get
      cTsPath mobxDtsPath {} {} = some mobxEntry := by
  have h := outside_scope_frame watchedState siblingPath .created (by decide) (by decide)
  exact ⟨by decide, by decide, h.2.1, by rw [h.1]; decide⟩

/-- C7 counterexample: after repopulating under the changed
specifier-style preference, the entry stored under the default preferences
is gone — `get` with the old preference set returns absence, so the two
entries do not coexist under distinct keys. -/
theorem preference_coexistence_counterexample :
    prefState2.get bTsPath aTsPath prPrefs {} = some abEntry2 ∧
    prefState2.get bTsPath aTsPath {} {} = none := by decide

/-- C7 (amended): after a change to a fingerprint-affecting preference
field, a preference-change event alone clears nothing, `get` with the old
preference set still returns the old entry, and `get` with the new
preference set returns absence; once the cache is repopulated under the new
preference set, the new entry is served and the old entry has been
replaced, so `get` with the old preference set returns absence. -/
theorem preference_change_keying_amended (c : ModuleSpecifierCache)
    (fromFile toFile : FilePath0) (oldP newP : UserPreferences) (mode : ModeContext)
    (e1 : CacheEntry) (h : preferenceFingerprint oldP ≠ preferenceFingerprint newP) :
    (c.set fromFile toFile oldP mode e1).invalidate .preferenceChange
      = c.set fromFile toFile oldP mode e1 ∧
    (c.set fromFile toFile oldP mode e1).get fromFile toFile oldP mode = some e1 ∧
    (c.set fromFile toFile oldP mode e1).get fromFile toFile newP mode = none ∧
    ∀ e2 : CacheEntry,
      ((c.set fromFile toFile oldP mode e1).set fromFile toFile newP mode e2).get
        fromFile toFile newP mode = some e2 ∧
      ((c.set fromFile toFile oldP mode e1).set fromFile toFile newP mode e2).get
        fromFile toFile oldP mode = none := by
  refine ⟨rfl, get_set_self .., ?_, fun e2 => ⟨get_set_self .., ?_⟩⟩
  · exact get_set_ne_key c fromFile toFile oldP mode e1 fromFile toFile newP mode
      (cacheKey_ne_of_fp_ne fromFile mode (Ne.symm h))
  · exact get_set_ne_key _ fromFile toFile newP mode e2 fromFile toFile oldP mode
      (cacheKey_ne_of_fp_ne fromFile mode h)

/-- Witness for the amended C7, on the concrete preference-change scenario
of the unit test. -/
theorem preference_change_keying_amended_witness :
    preferenceFingerprint {} ≠ preferenceFingerprint prPrefs ∧
    (emptyCache.set bTsPath aTsPath {} {} abEntry).get bTsPath aTsPath {} {} = some abEntry ∧
    (emptyCache.set bTsPath aTsPath {} {} abEntry).get bTsPath aTsPath prPrefs {} = none ∧
    ((emptyCache.set bTsPath aTsPath {} {} abEntry).set bTsPath aTsPath prPrefs {} abEntry2).get
      bTsPath aTsPath {} {} = none := by
  have h := preference_change_keying_amended emptyCache bTsPath aTsPath {} prPrefs {} abEntry
    (by decide)
  exact ⟨by decide, h.2.1, h.2.2.1, (h.2.2.2 abEntry2).2⟩

/-- C8: `get` on a key that is not stored — the imported file has no entry,
or the derived key is not the cache's current key (never stored, or removed
by invalidation) — returns absence, never a failure; `get` is a pure
function of the state, so it has no side effect on the store and triggers
no resolution computation. -/
theorem get_missing_returns_absence (c : ModuleSpecifierCache) (fromFile toFile : FilePath0)
    (prefs : UserPreferences) (mode : ModeContext)
    (h : lookupEntry toFile c.entries = none
      ∨ c.currentKey ≠ some (cacheKey fromFile prefs mode)) :
    c.get fromFile toFile prefs mode = none := by
  rcases h with h | h
  · simp [ModuleSpecifierCache.get, h]
  · simp [ModuleSpecifierCache.get, h]

/-- Witness for C8: `get` on the empty cache signals absence. -/
theorem get_missing_returns_absence_witness :
    (lookupEntry aTsPath emptyCache.entries = none
      ∨ emptyCache.currentKey ≠ some (cacheKey bTsPath {} {})) ∧
    emptyCache.get bTsPath aTsPath {} {} = none :=
  ⟨Or.inl rfl,
    get_missing_returns_absence emptyCache bTsPath aTsPath {} {} (Or.inl rfl)⟩

/-- C9: caching the single cross-file import of the declared dependency
`mobx` stores an entry whose `moduleSpecifiers` is exactly the bare package
name `["mobx"]`, whose module paths are flagged inside `node_modules` and
not redirects, and whose `isBlockedByPackageJsonDependencies` is false; the
entry is served back by `get`. -/
theorem mobx_dependency_scenario :
    mobxCachedState.get cTsPath mobxDtsPath {} {} = some mobxEntry ∧
    mobxEntry.moduleSpecifiers = ["mobx"] ∧
    (mobxEntry.modulePaths.all fun mp => mp.isInNodeModules && !mp.isRedirect) = true ∧
    mobxEntry.isBlockedByPackageJsonDependencies = false := by decide

/-- C10: repopulating the cache with `set` for the same
`(fromFile, toFile)` pair under a changed fingerprint-affecting preference
set replaces the entry stored under the previous preferences: a subsequent
`get` with the previously stored preference set returns absence. -/
theorem repopulate_replaces (c : ModuleSpecifierCache) (fromFile toFile : FilePath0)
    (p1 p2 : UserPreferences) (mode : ModeContext) (e1 e2 : CacheEntry)
    (h : preferenceFingerprint p1 ≠ preferenceFingerprint p2) :
    ((c.set fromFile toFile p1 mode e1).set fromFile toFile p2 mode e2).get
      fromFile toFile p1 mode = none :=
  get_set_ne_key _ fromFile toFile p2 mode e2 fromFile toFile p1 mode
    (cacheKey_ne_of_fp_ne fromFile mode h)

/-- Witness for C10, on the preference-change scenario of the unit test. -/
theorem repopulate_replaces_witness :
    preferenceFingerprint {} ≠ preferenceFingerprint prPrefs ∧
    ((emptyCache.set bTsPath aTsPath {} {} abEntry).set bTsPath aTsPath prPrefs {} abEntry2).get
      bTsPath aTsPath {} {} = none :=
  ⟨by decide,
    repopulate_replaces emptyCache bTsPath aTsPath {} prPrefs {} abEntry abEntry2 (by decide)⟩
